import Mathlib

/-!
Verification of the Expo SQLite query runner
(src/driver/expo/ExpoQueryRunner.ts). The runner keeps a logical
transaction state (active flag, depth counter, retained engine transaction
handle) and executes every statement inside the engine exclusive scope.
The definitions below are a shallow embedding of the transaction methods,
of the work, failure and completion callbacks of the query method, and of
the result shaping and resolution logic.
-/

namespace Expo

/-- Logical transaction state owned by the runner: the inherited fields
isTransactionActive and transactionDepth, and the retained engine
transaction handle (modelled as an opaque numeric identity, none when no
handle is held, mirroring the undefined value of the transaction field). -/
structure RunnerState where
  isTransactionActive : Bool
  transactionDepth : Int
  transaction : Option Nat
deriving DecidableEq

/-- Initial state of a fresh runner: inactive, depth 0, no handle. -/
def initState : RunnerState := ⟨false, 0, none⟩

/-- Errors thrown by the transaction methods: TransactionNotStartedError,
or an error raised by one of the awaited broadcasts. -/
inductive TxError where
  | transactionNotStarted
  | broadcastFailed
deriving DecidableEq

/-- Outcome of one call to startTransaction, commitTransaction or
rollbackTransaction: the thrown error if any, the state after the call,
and the broadcast events attempted, in order. -/
structure TxCallResult where
  error : Option TxError
  state : RunnerState
  broadcasts : List String
deriving DecidableEq

/-- startTransaction: sets the active flag, broadcasts
BeforeTransactionStart (when that broadcast fails the flag is cleared and
the error rethrown without touching the depth), then increments
transactionDepth and broadcasts AfterTransactionStart (a failure there
rethrows after the state change). The two Bool parameters give the
success of the two broadcasts. -/
def startTransactionRun (beforeOk afterOk : Bool) (s : RunnerState) : TxCallResult :=
  match beforeOk with
  | true =>
    ⟨match afterOk with | true => none | false => some TxError.broadcastFailed,
     { s with isTransactionActive := true, transactionDepth := s.transactionDepth + 1 },
     ["BeforeTransactionStart", "AfterTransactionStart"]⟩
  | false =>
    ⟨some TxError.broadcastFailed,
     { s with isTransactionActive := false },
     ["BeforeTransactionStart"]⟩

/-- commitTransaction: throws TransactionNotStarted when the runner is not
active and holds no transaction handle (before any broadcast and without a
state change); otherwise broadcasts BeforeTransactionCommit, clears the
handle, clears the active flag, decrements the depth and broadcasts
AfterTransactionCommit. -/
def commitTransactionRun (beforeOk afterOk : Bool) (s : RunnerState) : TxCallResult :=
  if s.isTransactionActive = false ∧ s.transaction = none then
    ⟨some TxError.transactionNotStarted, s, []⟩
  else
    match beforeOk with
    | true =>
      ⟨match afterOk with | true => none | false => some TxError.broadcastFailed,
       ⟨false, s.transactionDepth - 1, none⟩,
       ["BeforeTransactionCommit", "AfterTransactionCommit"]⟩
    | false =>
      ⟨some TxError.broadcastFailed, s, ["BeforeTransactionCommit"]⟩

/-- rollbackTransaction: identical bookkeeping to commitTransaction with
the rollback broadcast events instead. -/
def rollbackTransactionRun (beforeOk afterOk : Bool) (s : RunnerState) : TxCallResult :=
  if s.isTransactionActive = false ∧ s.transaction = none then
    ⟨some TxError.transactionNotStarted, s, []⟩
  else
    match beforeOk with
    | true =>
      ⟨match afterOk with | true => none | false => some TxError.broadcastFailed,
       ⟨false, s.transactionDepth - 1, none⟩,
       ["BeforeTransactionRollback", "AfterTransactionRollback"]⟩
    | false =>
      ⟨some TxError.broadcastFailed, s, ["BeforeTransactionRollback"]⟩

/-- The lazy-start portion of the query work callback: when no transaction
handle is recorded, await startTransaction and, when it returned normally,
record the scope handle h; when startTransaction threw, the handle is not
recorded and the error propagates out of the work callback. Returns the
new state and whether startTransaction was invoked. -/
def queryWorkRun (h : Nat) (beforeOk afterOk : Bool) (s : RunnerState) :
    RunnerState × Bool :=
  if s.transaction = none then
    let r := startTransactionRun beforeOk afterOk s
    match r.error with
    | some _ => (r.state, true)
    | none => ({ r.state with transaction := some h }, true)
  else
    (s, false)

/-- The completion callback of the exclusive scope: unconditionally clears
the active flag and the retained handle. The depth counter is not
touched. -/
def scopeCompleteStep (s : RunnerState) : RunnerState :=
  { s with isTransactionActive := false, transaction := none }

/-- The failure callback of the exclusive scope: awaits
rollbackTransaction and then settles the query promise with the engine
error. When the rollback itself throws, the settlement call is never
reached, which the second component records as none. -/
def failureCallbackRun (beforeOk afterOk : Bool) (err : Nat) (s : RunnerState) :
    RunnerState × Option Nat :=
  let r := rollbackTransactionRun beforeOk afterOk s
  match r.error with
  | some _ => (r.state, none)
  | none => (r.state, some err)

/-- States reachable from the initial state by the public transaction
methods, the lazy start inside the query work callback, and the scope
completion callback, each with any broadcaster outcome. -/
inductive Reachable : RunnerState → Prop where
  | init : Reachable initState
  | start {s : RunnerState} (b a : Bool) : Reachable s →
      Reachable (startTransactionRun b a s).state
  | commit {s : RunnerState} (b a : Bool) : Reachable s →
      Reachable (commitTransactionRun b a s).state
  | rollback {s : RunnerState} (b a : Bool) : Reachable s →
      Reachable (rollbackTransactionRun b a s).state
  | work {s : RunnerState} (h : Nat) (b a : Bool) : Reachable s →
      Reachable (queryWorkRun h b a s).1
  | complete {s : RunnerState} : Reachable s → Reachable (scopeCompleteStep s)

/-- Inductive invariant of the reachable states: the depth is nonnegative,
and a set active flag or a retained handle forces positive depth. -/
def StateInv (s : RunnerState) : Prop :=
  0 ≤ s.transactionDepth ∧
  (s.isTransactionActive = true → 1 ≤ s.transactionDepth) ∧
  (s.transaction ≠ none → 1 ≤ s.transactionDepth)

lemma stateInv_start (b a : Bool) (s : RunnerState) (ih : StateInv s) :
    StateInv (startTransactionRun b a s).state := by
  obtain ⟨h0, ha, ht⟩ := ih
  cases b <;> simp only [startTransactionRun, StateInv]
  · exact ⟨h0, by simp, fun hx => ht hx⟩
  · exact ⟨by omega, fun _ => by omega, fun _ => by omega⟩

lemma stateInv_commit (b a : Bool) (s : RunnerState) (ih : StateInv s) :
    StateInv (commitTransactionRun b a s).state := by
  obtain ⟨h0, ha, ht⟩ := ih
  by_cases hc : s.isTransactionActive = false ∧ s.transaction = none
  · simpa only [commitTransactionRun, if_pos hc] using ⟨h0, ha, ht⟩
  · have hd1 : 1 ≤ s.transactionDepth := by
      rcases Bool.eq_false_or_eq_true s.isTransactionActive with hA | hA
      · exact ha hA
      · have hne : s.transaction ≠ none := fun hn => hc ⟨hA, hn⟩
        exact ht hne
    cases b <;> simp only [commitTransactionRun, if_neg hc, StateInv]
    · exact ⟨h0, ha, ht⟩
    · exact ⟨by omega, by simp, by simp⟩

lemma stateInv_rollback (b a : Bool) (s : RunnerState) (ih : StateInv s) :
    StateInv (rollbackTransactionRun b a s).state := by
  obtain ⟨h0, ha, ht⟩ := ih
  by_cases hc : s.isTransactionActive = false ∧ s.transaction = none
  · simpa only [rollbackTransactionRun, if_pos hc] using ⟨h0, ha, ht⟩
  · have hd1 : 1 ≤ s.transactionDepth := by
      rcases Bool.eq_false_or_eq_true s.isTransactionActive with hA | hA
      · exact ha hA
      · have hne : s.transaction ≠ none := fun hn => hc ⟨hA, hn⟩
        exact ht hne
    cases b <;> simp only [rollbackTransactionRun, if_neg hc, StateInv]
    · exact ⟨h0, ha, ht⟩
    · exact ⟨by omega, by simp, by simp⟩

lemma stateInv_work (h : Nat) (b a : Bool) (s : RunnerState) (ih : StateInv s) :
    StateInv (queryWorkRun h b a s).1 := by
  obtain ⟨h0, ha, ht⟩ := ih
  by_cases hc : s.transaction = none
  · cases b <;>
      simp only [queryWorkRun, if_pos hc, startTransactionRun, StateInv]
    · exact ⟨h0, by simp, fun hx => ht hx⟩
    · cases a <;> simp only [StateInv] <;>
        exact ⟨by omega, fun _ => by omega, fun _ => by omega⟩
  · simpa only [queryWorkRun, if_neg hc] using ⟨h0, ha, ht⟩

lemma stateInv_complete (s : RunnerState) (ih : StateInv s) :
    StateInv (scopeCompleteStep s) := by
  obtain ⟨h0, _, _⟩ := ih
  exact ⟨h0, by simp [scopeCompleteStep], by simp [scopeCompleteStep]⟩

lemma stateInv_reachable {s : RunnerState} (hs : Reachable s) : StateInv s := by
  induction hs with
  | init => exact ⟨le_refl 0, by simp [initState], by simp [initState]⟩
  | start b a _ ih => exact stateInv_start b a _ ih
  | commit b a _ ih => exact stateInv_commit b a _ ih
  | rollback b a _ ih => exact stateInv_rollback b a _ ih
  | work h b a _ ih => exact stateInv_work h b a _ ih
  | complete _ ih => exact stateInv_complete _ ih

/-- The raw field of a QueryResult: initially the JS value undefined; set
to the copied row list when rows came back nonempty; overridden for
INSERT INTO statements by the value of the optionally chained
lastInsertRowId access, which is undefined when no statement handle
exists. -/
inductive Raw where
  | undef
  | rows (rs : List Nat)
  | intVal (v : Int)
deriving DecidableEq

/-- Statement handle returned by runAsync: an optional changes count (none
when the property is absent, so hasOwnProperty is false) and the
last-inserted row id. -/
structure StatementHandle where
  changes : Option Int
  lastInsertRowId : Int
deriving DecidableEq

/-- The uniform result object produced per query: affected count, raw
value and records list (the records field of the QueryResult class
defaults to the empty list). Rows are opaque numeric identities. -/
structure QueryResult where
  affected : Option Int
  raw : Raw
  records : List Nat
deriving DecidableEq

/-- The JS test text.startsWith(pre), modelled on the character
sequences of the two strings. -/
def startsWithLit (text pre : String) : Bool :=
  pre.data.isPrefixOf text.data

/-- Result shaping of a successful execution: affected is copied from the
handle exactly when the handle exists and its changes property is present;
raw and records are set to a copy of the rows exactly when the row list is
nonempty; finally, when the query text starts with the literal INSERT INTO,
raw is overridden with the last-inserted row id of the handle (undefined
when the handle is absent). -/
def shapeResult (query : String) (t : Option StatementHandle) (rows : List Nat) :
    QueryResult :=
  let affected : Option Int :=
    match t with
    | some hd => hd.changes
    | none => none
  let base : QueryResult :=
    if rows.length ≠ 0 then ⟨affected, Raw.rows rows, rows⟩
    else ⟨affected, Raw.undef, []⟩
  if startsWithLit query "INSERT INTO" then
    { base with raw :=
        match t with
        | some hd => Raw.intVal hd.lastInsertRowId
        | none => Raw.undef }
  else base

/-- The value with which the query promise is resolved. -/
inductive Resolved where
  | full (r : QueryResult)
  | rows (rs : List Nat)
  | intVal (v : Int)
deriving DecidableEq

/-- Promise resolution: the full result object when a structured result
was requested; otherwise the raw value when it is truthy in the JS sense,
and the empty list when raw is undefined or the number 0 (exactly the
semantics of the expression result.raw or-else the empty list). -/
def resolveValue (structured : Bool) (r : QueryResult) : Resolved :=
  match structured with
  | true => Resolved.full r
  | false =>
    match r.raw with
    | Raw.undef => Resolved.rows []
    | Raw.rows rs => Resolved.rows rs
    | Raw.intVal v => if v = 0 then Resolved.rows [] else Resolved.intVal v

/-- Behaviour of the engine for one statement: the outcome of
transaction.runAsync, of the getAllAsync call on the obtained handle, and
of the fallback transaction.getAllAsync call. Errors are opaque numeric
codes. -/
structure EngineBehavior where
  runAsync : Except Nat StatementHandle
  handleGetAll : Except Nat (List Nat)
  txGetAll : Except Nat (List Nat)

/-- The two-path execution inside the work callback: try runAsync and then
fetch the rows through the obtained handle; on any error raised inside
that try block, fetch the rows directly from the scope transaction with
the original text and parameters. Returns the handle variable t as left
assigned (it keeps its value when only the fetch step raised), the rows,
and whether the fallback fetch produced them. -/
def executeTwoPath (e : EngineBehavior) :
    Except Nat (Option StatementHandle × List Nat × Bool) :=
  match e.runAsync with
  | Except.ok t =>
    match e.handleGetAll with
    | Except.ok rows => Except.ok (some t, rows, false)
    | Except.error _ =>
      match e.txGetAll with
      | Except.ok rows => Except.ok (some t, rows, true)
      | Except.error er => Except.error er
  | Except.error _ =>
    match e.txGetAll with
    | Except.ok rows => Except.ok (none, rows, true)
    | Except.error er => Except.error er

/-- A call to the slow-query logging sink, carrying the exact elapsed time
and the query text and parameters that were passed to logQuerySlow. -/
structure SlowLog where
  elapsed : Nat
  queryText : String
  params : List Nat
deriving DecidableEq

/-- Settlement of the query promise by the work callback body. -/
inductive QueryOutcome where
  | resolved (v : Resolved)
  | failed (underlying : Nat)
  | failedBroadcast
deriving DecidableEq

/-- The body of the work callback after the lazy start: two-path
execution, then the after-query broadcast wait (waitOk gives its
success), then the slow-query check that compares the elapsed time
against the configured maxQueryExecutionTime (skipped when the threshold
is absent or 0, by the JS truthiness guard), then shaping and resolution.
Any error is settled as a failure wrapping the underlying cause (a
QueryFailedError). Returns the settlement and the slow-sink call, if
any. -/
def runWorkBody (q : String) (ps : List Nat) (structured : Bool)
    (maxT : Option Nat) (elapsed : Nat) (waitOk : Bool) (e : EngineBehavior) :
    QueryOutcome × Option SlowLog :=
  match executeTwoPath e with
  | Except.error er => (QueryOutcome.failed er, none)
  | Except.ok (t, rows, _) =>
    match waitOk with
    | false => (QueryOutcome.failedBroadcast, none)
    | true =>
      let slow : Option SlowLog :=
        match maxT with
        | some T => if T ≠ 0 ∧ elapsed > T then some ⟨elapsed, q, ps⟩ else none
        | none => none
      (QueryOutcome.resolved (resolveValue structured (shapeResult q t rows)), slow)

/-- Claim C1 (amended): whenever the exclusive scope completes, the
completion callback unconditionally clears the active flag and the
retained engine handle, for every state and regardless of whether
commitTransaction or rollbackTransaction was called; the depth counter,
however, is left unchanged, not reset to 0. -/
theorem C1_scope_complete_clears (s : RunnerState) :
    scopeCompleteStep s = ⟨false, s.transactionDepth, none⟩ := rfl

/-- Claim C1 counterexample: after one plain query against the initial
state (lazy start recording handle 0, then scope completion) the depth is
1, not the 0 required by the claim, although the active flag and the
handle are indeed cleared. -/
theorem C1_counterexample :
    Reachable (queryWorkRun 0 true true initState).1 ∧
    scopeCompleteStep (queryWorkRun 0 true true initState).1 = ⟨false, 1, none⟩ ∧
    ¬ (scopeCompleteStep (queryWorkRun 0 true true initState).1).transactionDepth = 0 :=
  ⟨Reachable.work 0 true true Reachable.init, by decide, by decide⟩

/-- Claim C2 (amended): the work callback invokes startTransaction exactly
when no engine handle is recorded (the transaction field is none), not
when the active flag is off; when it does and both start broadcasts
succeed, the scope handle is recorded as the retained handle; when a
handle is already recorded nothing happens and no start is invoked. -/
theorem C2_lazy_start_guard (s : RunnerState) (h : Nat) (b a : Bool) :
    ((queryWorkRun h b a s).2 = true ↔ s.transaction = none) ∧
    (s.transaction = none →
      (queryWorkRun h true true s).1 = ⟨true, s.transactionDepth + 1, some h⟩) ∧
    (s.transaction ≠ none → queryWorkRun h b a s = (s, false)) := by
  refine ⟨?_, ?_, ?_⟩
  · by_cases hc : s.transaction = none
    · cases b <;> cases a <;> simp [queryWorkRun, hc, startTransactionRun]
    · simp [queryWorkRun, hc]
  · intro hc
    simp [queryWorkRun, hc, startTransactionRun]
  · intro hc
    simp [queryWorkRun, hc]

theorem C2_lazy_start_guard_witness :
    (queryWorkRun 5 true true initState).2 = true ∧
    (queryWorkRun 5 true true initState).1 =
      ⟨true, initState.transactionDepth + 1, some 5⟩ :=
  ⟨(C2_lazy_start_guard initState 5 true true).1.mpr rfl,
   (C2_lazy_start_guard initState 5 true true).2.1 rfl⟩

/-- Claim C2 counterexample: after an explicit startTransaction a logical
transaction is active while no handle is recorded, and the work callback
of the next query then invokes startTransaction again, refuting that the
implicit start happens only when no transaction is active. -/
theorem C2_counterexample :
    Reachable (startTransactionRun true true initState).state ∧
    (startTransactionRun true true initState).state.isTransactionActive = true ∧
    (queryWorkRun 5 true true (startTransactionRun true true initState).state).2 = true :=
  ⟨Reachable.start true true Reachable.init, by decide, by decide⟩

/-- Claim C3 (amended): in every state reachable by any sequence of the
transaction methods, the lazy start and the completion callback, depth 0
forces an absent engine handle; the other half of the claimed invariant,
positive depth forces the active flag, fails on the code: see the
counterexample. -/
theorem C3_depth_zero_no_handle (s : RunnerState) (hs : Reachable s)
    (hd : s.transactionDepth = 0) : s.transaction = none := by
  obtain ⟨h0, ha, ht⟩ := stateInv_reachable hs
  by_contra hne
  have := ht hne
  omega

theorem C3_depth_zero_no_handle_witness : initState.transaction = none :=
  C3_depth_zero_no_handle initState Reachable.init rfl

/-- Claim C3 counterexample: the state after one plain query (lazy start
then scope completion) is reachable and has depth 1 with the active flag
cleared, refuting that positive depth implies an active transaction. -/
theorem C3_counterexample :
    Reachable (scopeCompleteStep (queryWorkRun 0 true true initState).1) ∧
    (scopeCompleteStep (queryWorkRun 0 true true initState).1).transactionDepth = 1 ∧
    (scopeCompleteStep (queryWorkRun 0 true true initState).1).isTransactionActive
      = false :=
  ⟨Reachable.complete (Reachable.work 0 true true Reachable.init), by decide, by decide⟩

/-- Claim C4: commitTransaction and rollbackTransaction throw
TransactionNotStarted exactly when the runner is inactive and holds no
engine handle; on that failure no broadcast is attempted and the state is
unchanged; and in every reachable state with depth 0 and no held handle
both calls always fail that way. -/
theorem C4_not_started (s : RunnerState) (b a : Bool) :
    (((commitTransactionRun b a s).error = some TxError.transactionNotStarted) ↔
      (s.isTransactionActive = false ∧ s.transaction = none)) ∧
    (((rollbackTransactionRun b a s).error = some TxError.transactionNotStarted) ↔
      (s.isTransactionActive = false ∧ s.transaction = none)) ∧
    (s.isTransactionActive = false ∧ s.transaction = none →
      commitTransactionRun b a s = ⟨some TxError.transactionNotStarted, s, []⟩ ∧
      rollbackTransactionRun b a s = ⟨some TxError.transactionNotStarted, s, []⟩) ∧
    (Reachable s → s.transactionDepth = 0 → s.transaction = none →
      (commitTransactionRun b a s).error = some TxError.transactionNotStarted ∧
      (rollbackTransactionRun b a s).error = some TxError.transactionNotStarted) := by
  by_cases hc : s.isTransactionActive = false ∧ s.transaction = none
  · refine ⟨?_, ?_, ?_, ?_⟩
    · simp [commitTransactionRun, hc]
    · simp [rollbackTransactionRun, hc]
    · intro _
      exact ⟨by simp [commitTransactionRun, hc], by simp [rollbackTransactionRun, hc]⟩
    · intro _ _ _
      exact ⟨by simp [commitTransactionRun, hc], by simp [rollbackTransactionRun, hc]⟩
  · refine ⟨?_, ?_, fun hcc => absurd hcc hc, ?_⟩
    · cases b <;> cases a <;> simp [commitTransactionRun, if_neg hc, hc]
    · cases b <;> cases a <;> simp [rollbackTransactionRun, if_neg hc, hc]
    · intro hr h0 hn
      obtain ⟨_, ha, _⟩ := stateInv_reachable hr
      have hA : s.isTransactionActive = false := by
        rcases Bool.eq_false_or_eq_true s.isTransactionActive with hx | hx
        · exact absurd (ha hx) (by omega)
        · exact hx
      exact absurd ⟨hA, hn⟩ hc

theorem C4_not_started_witness :
    (commitTransactionRun true true initState).error
      = some TxError.transactionNotStarted ∧
    (rollbackTransactionRun true true initState).error
      = some TxError.transactionNotStarted :=
  (C4_not_started initState true true).2.2.2 Reachable.init rfl rfl

/-- Claim C5: for a successfully executed query whose text starts with the
literal INSERT INTO and whose submission produced a statement handle, the
raw field equals the last-inserted row id of that handle and never the row
list, even when rows were also returned. The witness is the spec example:
the INSERT with last-inserted row id 7 resolves, unstructured, to 7. -/
theorem C5_insert_raw (q : String) (hd : StatementHandle) (rows : List Nat)
    (hq : startsWithLit q "INSERT INTO" = true) :
    (shapeResult q (some hd) rows).raw = Raw.intVal hd.lastInsertRowId ∧
    ∀ rs : List Nat, (shapeResult q (some hd) rows).raw ≠ Raw.rows rs := by
  constructor
  · simp [shapeResult, hq]
  · intro rs
    simp [shapeResult, hq]

theorem C5_insert_raw_witness :
    startsWithLit "INSERT INTO t (x) VALUES (1)" "INSERT INTO" = true ∧
    (shapeResult "INSERT INTO t (x) VALUES (1)" (some ⟨none, 7⟩) []).raw
      = Raw.intVal 7 ∧
    resolveValue false (shapeResult "INSERT INTO t (x) VALUES (1)" (some ⟨none, 7⟩) [])
      = Resolved.intVal 7 :=
  ⟨by decide,
   (C5_insert_raw "INSERT INTO t (x) VALUES (1)" ⟨none, 7⟩ [] (by decide)).1,
   by decide⟩

/-- Claim C6 (amended): a structured resolution returns the full result
object; a non-structured resolution never does: it returns raw when raw
is truthy in the JS sense (a row list, or a nonzero number) and the empty
list when raw is undefined or the number 0 — so the empty list is not
returned exactly when raw is absent. -/
theorem C6_resolution (r : QueryResult) :
    resolveValue true r = Resolved.full r ∧
    (∀ r2 : QueryResult, resolveValue false r ≠ Resolved.full r2) ∧
    (r.raw = Raw.undef → resolveValue false r = Resolved.rows []) ∧
    (r.raw = Raw.intVal 0 → resolveValue false r = Resolved.rows []) ∧
    (∀ rs, r.raw = Raw.rows rs → resolveValue false r = Resolved.rows rs) ∧
    (∀ v, r.raw = Raw.intVal v → v ≠ 0 →
      resolveValue false r = Resolved.intVal v) := by
  refine ⟨rfl, ?_, ?_, ?_, ?_, ?_⟩
  · intro r2
    cases hr : r.raw with
    | undef => simp [resolveValue, hr]
    | rows rs => simp [resolveValue, hr]
    | intVal v => by_cases hv : v = 0 <;> simp [resolveValue, hr, hv]
  · intro h; simp [resolveValue, h]
  · intro h; simp [resolveValue, h]
  · intro rs h; simp [resolveValue, h]
  · intro v h hv; simp [resolveValue, h, hv]

theorem C6_resolution_witness :
    resolveValue true ⟨none, Raw.undef, []⟩ = Resolved.full ⟨none, Raw.undef, []⟩ ∧
    resolveValue false ⟨none, Raw.undef, []⟩ = Resolved.rows [] :=
  ⟨(C6_resolution ⟨none, Raw.undef, []⟩).1,
   (C6_resolution ⟨none, Raw.undef, []⟩).2.2.1 rfl⟩

/-- Claim C6 counterexample: an INSERT INTO statement whose handle reports
last-inserted row id 0 and that also returned a row has a present raw (the
number 0), yet the non-structured resolution returns the empty list,
because the JS or-else expression tests truthiness, not absence. -/
theorem C6_counterexample :
    (shapeResult "INSERT INTO t (x) VALUES (1)" (some ⟨none, 0⟩) [5]).raw
      ≠ Raw.undef ∧
    resolveValue false (shapeResult "INSERT INTO t (x) VALUES (1)" (some ⟨none, 0⟩) [5])
      = Resolved.rows [] :=
  ⟨by decide, by decide⟩

/-- Claim C7: execution first attempts the primary path (runAsync to get a
statement handle, then fetch all rows through it); when either step
raises, the rows are fetched directly from the scope transaction with the
original text and parameters, and when that fallback fetch succeeds (and
the awaited after-query broadcast succeeds) the operation still resolves
successfully, shaped from the fallback rows. -/
theorem C7_fallback_resolves (e : EngineBehavior) (rows : List Nat)
    (q : String) (ps : List Nat) (structured : Bool) (maxT : Option Nat)
    (elapsed : Nat)
    (hp : (∃ er, e.runAsync = Except.error er) ∨
          (∃ er, e.handleGetAll = Except.error er))
    (hf : e.txGetAll = Except.ok rows) :
    ∃ t : Option StatementHandle,
      executeTwoPath e = Except.ok (t, rows, true) ∧
      (runWorkBody q ps structured maxT elapsed true e).1 =
        QueryOutcome.resolved (resolveValue structured (shapeResult q t rows)) := by
  rcases hp with ⟨er, hr⟩ | ⟨er, hg⟩
  · exact ⟨none, by simp [executeTwoPath, hr, hf],
      by simp [runWorkBody, executeTwoPath, hr, hf]⟩
  · cases hra : e.runAsync with
    | error er2 =>
      exact ⟨none, by simp [executeTwoPath, hra, hf],
        by simp [runWorkBody, executeTwoPath, hra, hf]⟩
    | ok t0 =>
      exact ⟨some t0, by simp [executeTwoPath, hra, hg, hf],
        by simp [runWorkBody, executeTwoPath, hra, hg, hf]⟩

theorem C7_fallback_resolves_witness :
    ∃ t : Option StatementHandle,
      executeTwoPath ⟨Except.error 3, Except.ok [], Except.ok [4]⟩
        = Except.ok (t, [4], true) ∧
      (runWorkBody "SELECT * FROM t" [] false none 0 true
          ⟨Except.error 3, Except.ok [], Except.ok [4]⟩).1 =
        QueryOutcome.resolved
          (resolveValue false (shapeResult "SELECT * FROM t" t [4])) :=
  C7_fallback_resolves ⟨Except.error 3, Except.ok [], Except.ok [4]⟩ [4]
    "SELECT * FROM t" [] false none 0 (Or.inl ⟨3, rfl⟩) rfl

/-- Claim C8 (amended): for a configured nonzero threshold T and a query
whose execution and after-query broadcast wait succeed, the slow sink is
invoked with exactly the elapsed time and the query text and parameters
precisely when the elapsed time exceeds T; for elapsed at most T it is
never invoked; and the threshold never changes the settlement value. For
a configured threshold of 0 the sink is never invoked even when the
elapsed time exceeds it: see the counterexample. -/
theorem C8_slow_logging (q : String) (ps : List Nat) (structured : Bool)
    (T elapsed : Nat) (e : EngineBehavior)
    (hT : 0 < T)
    (hex : ∃ res, executeTwoPath e = Except.ok res) :
    ((runWorkBody q ps structured (some T) elapsed true e).2 =
      if T < elapsed then some ⟨elapsed, q, ps⟩ else none) ∧
    (elapsed ≤ T → (runWorkBody q ps structured (some T) elapsed true e).2 = none) ∧
    ((runWorkBody q ps structured (some T) elapsed true e).1 =
      (runWorkBody q ps structured none elapsed true e).1) := by
  obtain ⟨⟨t, rows, fb⟩, hres⟩ := hex
  have hT0 : ¬ T = 0 := by omega
  refine ⟨?_, ?_, ?_⟩
  · simp [runWorkBody, hres, hT0, gt_iff_lt]
  · intro hle
    have hnlt : ¬ T < elapsed := by omega
    simp [runWorkBody, hres, hT0, gt_iff_lt, hnlt]
  · simp [runWorkBody, hres]

theorem C8_slow_logging_witness :
    (0 < 2) ∧
    ((runWorkBody "SELECT * FROM t" [] false (some 2) 5 true
        ⟨Except.ok ⟨none, 0⟩, Except.ok [1], Except.ok [1]⟩).2 =
      if 2 < 5 then some ⟨5, "SELECT * FROM t", []⟩ else none) :=
  ⟨by decide,
   (C8_slow_logging "SELECT * FROM t" [] false 2 5
      ⟨Except.ok ⟨none, 0⟩, Except.ok [1], Except.ok [1]⟩ (by decide)
      ⟨(some ⟨none, 0⟩, [1], false), rfl⟩).1⟩

/-- Claim C8 counterexample: with a configured threshold of 0 and elapsed
time 1, which exceeds the threshold, a successful query never invokes the
slow sink, because the guard first tests the JS truthiness of the
threshold value. -/
theorem C8_counterexample :
    (runWorkBody "SELECT * FROM t" [] false (some 0) 1 true
        ⟨Except.ok ⟨none, 0⟩, Except.ok [1], Except.ok [1]⟩).2 = none ∧
    (runWorkBody "SELECT * FROM t" [] false (some 0) 1 true
        ⟨Except.ok ⟨none, 0⟩, Except.ok [1], Except.ok [1]⟩).1 =
      QueryOutcome.resolved (Resolved.rows [1]) ∧
    0 < 1 :=
  ⟨by decide, by decide, by decide⟩

/-- Claim C9 (amended): when the engine signals that the scope failed and
the runner has an active transaction or a held handle and the rollback
broadcasts succeed, the failure callback resets the bookkeeping through
rollbackTransaction and settles the operation exactly once with the
engine error; when rollbackTransaction itself throws (for instance after
a failed lazy start, with no transaction active and no handle held) no
settlement happens at all: see the counterexample. -/
theorem C9_failure_callback (s : RunnerState) (err : Nat)
    (hpre : s.isTransactionActive = true ∨ s.transaction ≠ none) :
    failureCallbackRun true true err s =
      (⟨false, s.transactionDepth - 1, none⟩, some err) := by
  have hc : ¬(s.isTransactionActive = false ∧ s.transaction = none) := by
    rcases hpre with h | h
    · rintro ⟨h1, _⟩
      rw [h] at h1
      exact Bool.noConfusion h1
    · rintro ⟨_, h2⟩
      exact h h2
  simp [failureCallbackRun, rollbackTransactionRun, hc]

theorem C9_failure_callback_witness :
    failureCallbackRun true true 42 ⟨true, 1, some 0⟩ = (⟨false, 0, none⟩, some 42) := by
  simpa using C9_failure_callback ⟨true, 1, some 0⟩ 42 (Or.inl rfl)

/-- Claim C9 counterexample: when the lazy start failed because of the
before-start broadcast, the work callback rejects while no transaction is
active and no handle is held; the failure callback then sees
rollbackTransaction throw TransactionNotStarted and the settlement with
the engine error never happens, so the operation is not failed with the
engine error. -/
theorem C9_counterexample :
    Reachable (queryWorkRun 0 false true initState).1 ∧
    (failureCallbackRun true true 42 (queryWorkRun 0 false true initState).1).2
      = none ∧
    ¬ (failureCallbackRun true true 42 (queryWorkRun 0 false true initState).1).2
      = some 42 :=
  ⟨Reachable.work 0 false true Reachable.init, by decide, by decide⟩

/-- Claim C10 (amended): when the fallback fetch is taken because runAsync
itself raised, the handle variable is unassigned, so affected is never
set, and for an INSERT INTO text raw is undefined and the non-structured
resolution is the empty list; when the fallback is taken because only the
fetch through the handle raised, the handle persists and affected and the
inserted row id still come from it: see the counterexample. -/
theorem C10_fallback_no_handle (e : EngineBehavior) (er : Nat)
    (rows : List Nat) (q : String)
    (hr : e.runAsync = Except.error er)
    (hf : e.txGetAll = Except.ok rows) :
    executeTwoPath e = Except.ok (none, rows, true) ∧
    (shapeResult q none rows).affected = none ∧
    (startsWithLit q "INSERT INTO" = true →
      (shapeResult q none rows).raw = Raw.undef ∧
      resolveValue false (shapeResult q none rows) = Resolved.rows []) := by
  refine ⟨by simp [executeTwoPath, hr, hf], ?_, ?_⟩
  · by_cases hl : rows.length ≠ 0 <;>
      by_cases hq : startsWithLit q "INSERT INTO" = true <;>
      simp [shapeResult, hl, hq]
  · intro hq
    by_cases hl : rows.length ≠ 0 <;>
      simp [shapeResult, hl, hq, resolveValue]

theorem C10_fallback_no_handle_witness :
    executeTwoPath ⟨Except.error 3, Except.ok [], Except.ok []⟩
      = Except.ok (none, [], true) ∧
    (shapeResult "INSERT INTO t (x) VALUES (1)" none []).affected = none ∧
    ((shapeResult "INSERT INTO t (x) VALUES (1)" none []).raw = Raw.undef ∧
     resolveValue false (shapeResult "INSERT INTO t (x) VALUES (1)" none [])
       = Resolved.rows []) :=
  ⟨(C10_fallback_no_handle ⟨Except.error 3, Except.ok [], Except.ok []⟩ 3 []
      "INSERT INTO t (x) VALUES (1)" rfl rfl).1,
   (C10_fallback_no_handle ⟨Except.error 3, Except.ok [], Except.ok []⟩ 3 []
      "INSERT INTO t (x) VALUES (1)" rfl rfl).2.1,
   (C10_fallback_no_handle ⟨Except.error 3, Except.ok [], Except.ok []⟩ 3 []
      "INSERT INTO t (x) VALUES (1)" rfl rfl).2.2 (by decide)⟩

/-- Claim C10 counterexample: a query resolving via the fallback because
the fetch through the handle raised still has its statement handle; with
changes 3 and last-inserted row id 7, the shaped result of an INSERT INTO
text has affected set to 3 and raw set to 7, and the structured
settlement carries them, refuting that a fallback resolution never sets
affected. -/
theorem C10_counterexample :
    executeTwoPath ⟨Except.ok ⟨some 3, 7⟩, Except.error 1, Except.ok [9]⟩
      = Except.ok (some ⟨some 3, 7⟩, [9], true) ∧
    (shapeResult "INSERT INTO t (x) VALUES (1)" (some ⟨some 3, 7⟩) [9]).affected
      = some 3 ∧
    (shapeResult "INSERT INTO t (x) VALUES (1)" (some ⟨some 3, 7⟩) [9]).raw
      = Raw.intVal 7 ∧
    (runWorkBody "INSERT INTO t (x) VALUES (1)" [] true none 0 true
        ⟨Except.ok ⟨some 3, 7⟩, Except.error 1, Except.ok [9]⟩).1 =
      QueryOutcome.resolved (Resolved.full ⟨some 3, Raw.intVal 7, [9]⟩) :=
  ⟨rfl, rfl, rfl, rfl⟩

end Expo
